import Mathlib

/-!
# Verification of the IronClad control-assessment core (`scripts/assess_controls.py`)

A shallow embedding of the evidence-to-control matching pipeline:

* strings are Lean `String`s (Python `str` is a sequence of code points, so
  `List Char` operations model Python slicing/scanning faithfully);
* Python `s[:n]` is `pyTake`, `s.lower()` is `pyLower` (ASCII per-char
  lower-casing, as in `Char.toLower`; agrees with Python on ASCII input),
  `s.split()` is `pySplit` (split on whitespace runs, dropping empties),
  `kw in text` is `strContains`;
* the `evidence_texts` dict is an association list in insertion order
  (directory file names are distinct, so keys never collide);
* fallible I/O (JSON parsing, directory listing) is modelled by inductives
  with an explicit failure constructor, and `main` returns the list of
  pipeline stages it executed together with an `Except` outcome, so that
  "aborts before extraction / before writing output" is a statement about
  the stage trace.

Wall-clock data (`assessment_id`, `timestamp`) is the only part of the
output left out of the model: no verified property mentions it.
-/

/-! ## Python string primitives -/

/-- Python `s[:n]`: the first `n` code points. -/
def pyTake (s : String) (n : Nat) : String :=
  (s.toList.take n).asString

/-- Python `s.lower()`, modelled as per-character ASCII lower-casing. -/
def pyLower (s : String) : String :=
  (s.toList.map Char.toLower).asString

/-- Helper for `pySplit`: accumulate the current word (reversed) while
scanning, emitting a word at each whitespace run boundary. -/
def wordsAux : List Char → List Char → List (List Char)
  | [], cur => if cur.isEmpty then [] else [cur.reverse]
  | c :: rest, cur =>
    if c.isWhitespace then
      if cur.isEmpty then wordsAux rest [] else cur.reverse :: wordsAux rest []
    else wordsAux rest (c :: cur)

/-- Python `s.split()` with no argument: split on runs of whitespace,
discarding empty fragments. -/
def pySplit (s : String) : List String :=
  (wordsAux s.toList []).map List.asString

/-- Python `pat in text`: substring containment (the empty pattern is
contained in every string, as in Python). -/
def strContains (text pat : String) : Bool :=
  (List.range (text.toList.length + 1)).any
    (fun i => pat.toList.isPrefixOf (text.toList.drop i))

/-- Python `sep.join(l)`. -/
def pyJoin (sep : String) : List String → String
  | [] => ""
  | [x] => x
  | x :: y :: xs => x ++ sep ++ pyJoin sep (y :: xs)

/-! ## Data model (§3 of the framework file format)

A control object of the framework document.  The matcher reads
`common_evidence` and `points_of_focus` through `.get` with a default, and
`id`/`name`/`description` directly; we model a control with all fields
present, which is the case every claim quantifies over. -/

structure Control where
  id : String
  name : String
  description : String
  common_evidence : List String
  points_of_focus : List String
  deriving Repr, DecidableEq

/-- The `"framework"` top-level object: `{id, name, version}`. -/
structure FrameworkIdent where
  id : String
  name : String
  version : String
  deriving Repr, DecidableEq

/-- A parsed framework document.  `none` fields model absent JSON keys:
`main` reads `controls` via `.get("controls", [])` and the identity object
via direct `framework["framework"]` indexing. -/
structure FrameworkDoc where
  framework : Option FrameworkIdent
  controls : Option (List Control)
  deriving Repr, DecidableEq

/-- A finding produced for one control (`match_evidence_to_control`'s
return dict, minus nothing). -/
structure Finding where
  control_id : String
  control_name : String
  control_description : String
  common_evidence_types : List String
  evidence_found : List String
  preliminary_status : String
  points_of_focus_count : Nat
  requires_ai_analysis : Bool
  deriving Repr, DecidableEq

/-! ## Relevance matcher (`match_evidence_to_control`, lines 81-123) -/

/-- Keyword list of a control: each `common_evidence` label lower-cased and
split on whitespace, concatenated in order (`control_keywords.extend(...)`).
Duplicates are kept: the Python value is a `list`, not a `set`.
(The lower-cased `description` and `name` are also computed by the source,
lines 89-90, but never used.) -/
def controlKeywords (c : Control) : List String :=
  c.common_evidence.flatMap (fun ev => pySplit (pyLower ev))

/-- Python `sum(1 for kw in control_keywords if kw in text_lower)`: the
number of keyword-list entries (with multiplicity) occurring in the text. -/
def countMatches (keywords : List String) (textLower : String) : Nat :=
  (keywords.filter (fun kw => strContains textLower kw)).length

def match_evidence_to_control (control : Control)
    (evidence_texts : List (String × String)) : Finding :=
  let control_keywords := controlKeywords control
  let matched_evidence :=
    (evidence_texts.filter
      (fun p => 2 < countMatches control_keywords (pyLower p.2))).map (·.1)
  let status :=
    if matched_evidence.length ≥ 2 then "potential_compliant"
    else if matched_evidence.length = 1 then "potential_partial"
    else "potential_gap"
  { control_id := control.id
    control_name := control.name
    control_description := pyTake control.description 500
    common_evidence_types := control.common_evidence
    evidence_found := matched_evidence
    preliminary_status := status
    points_of_focus_count := control.points_of_focus.length
    requires_ai_analysis := true }

/-! ## Text extractor (`extract_text_from_file`, lines 35-78) -/

/-- The content of an evidence file, as the extraction libraries see it.
The constructor determines which branch of `extract_text_from_file` runs:

* `plainText content` — a `.txt`/`.md`/`.csv`/`.json` file whose text read
  (with undecodable bytes ignored) yields `content`;
* `pdf (some pages)` — a `.pdf` `PyPDF2` parses, with the per-page text of
  `page.extract_text() or ""`; `pdf none` — any exception inside the PDF
  branch (the `except` returns a placeholder);
* `docx` — analogous, with the paragraph texts;
* `xlsx (some sheets)` — an `.xlsx`/`.xls` workbook as worksheets of rows
  of cell values rendered to strings, an empty cell string standing for a
  falsy cell (filtered by `if c`); `xlsx none` — extraction failure;
* `other` — an unrecognized extension: no branch taken, `None` returned;
* `readError` — a recognized type whose handling raises outside the inner
  `try` (e.g. an OS read error): caught by the outer handler, warning
  printed, `None` returned. -/
inductive EvidenceDoc where
  | plainText (content : String)
  | pdf (pages : Option (List String))
  | docx (paras : Option (List String))
  | xlsx (sheets : Option (List (List (List String))))
  | other
  | readError
  deriving Repr, DecidableEq

/-- The worksheet loop: at most 2 sheets, at most 50 rows per sheet, truthy
cells of a row joined with spaces, a newline appended per row. -/
def xlsxText (sheets : List (List (List String))) : String :=
  String.join ((sheets.take 2).map (fun sheet =>
    String.join ((sheet.take 50).map (fun row =>
      pyJoin " " (row.filter (fun c => c ≠ "")) ++ "\n"))))

def extract_text_from_file (name : String) (doc : EvidenceDoc) :
    Option String :=
  match doc with
  | .plainText content => some (pyTake content 5000)
  | .pdf (some pages) => some (pyTake (String.join (pages.take 5)) 5000)
  | .pdf none => some ("[PDF: " ++ name ++ "]")
  | .docx (some paras) => some (pyTake (pyJoin "\n" paras) 5000)
  | .docx none => some ("[DOCX: " ++ name ++ "]")
  | .xlsx (some sheets) => some (pyTake (xlsxText sheets) 5000)
  | .xlsx none => some ("[XLSX: " ++ name ++ "]")
  | .other => none
  | .readError => none

/-! ## Evidence catalog and `main` (lines 126-200) -/

/-- One regular file directly under the evidence directory. -/
structure EvidenceFile where
  name : String
  doc : EvidenceDoc
  size : Nat
  deriving Repr, DecidableEq

/-- The evidence directory: missing (`iterdir` raises), or its list of
regular files in enumeration order. -/
inductive EvidenceDir where
  | missing
  | present (files : List EvidenceFile)
  deriving Repr, DecidableEq

/-- The framework file as `json.load` sees it. -/
inductive FrameworkFile where
  | malformed
  | parsed (doc : FrameworkDoc)
  deriving Repr, DecidableEq

/-- The `evidence_texts` dict (lines 151-155): a file contributes its
extracted text under its name iff extraction returned a truthy value
(non-`None` and non-empty). -/
def buildEvidenceTexts (files : List EvidenceFile) :
    List (String × String) :=
  files.filterMap (fun f =>
    match extract_text_from_file f.name f.doc with
    | some t => if t = "" then none else some (f.name, t)
    | none => none)

/-- The errors `main` can die of.  The spec's taxonomy maps:
FormatError ↦ `jsonDecodeError` (line 18), NotFoundError ↦
`fileNotFoundError` (line 24), and the failure on a missing
`"framework"` key is a `KeyError` at line 172, while assembling the
output. -/
inductive RunError where
  | jsonDecodeError
  | fileNotFoundError
  | keyError
  deriving Repr, DecidableEq

/-- Pipeline stages, in source order, recorded as they complete (for
`writeOutput`: as the output file is opened for writing). -/
inductive Stage where
  | loadFramework
  | catalogEvidence
  | extractText
  | matchControls
  | writeOutput
  deriving Repr, DecidableEq

/-- The output artifact, minus the wall-clock fields. -/
structure AssessmentResult where
  client_id : String
  framework_id : String
  framework_name : String
  framework_version : String
  assessment_type : String
  evidence_files : List EvidenceFile
  total_controls : Nat
  potential_compliant : Nat
  potential_partial : Nat
  potential_gap : Nat
  findings : List Finding
  note : String
  deriving Repr, DecidableEq

/-- The `main` entry point, as a pure function from its inputs to the stage
trace it executes and its outcome.  Statement order follows the source: framework
load, `controls = framework.get("controls", [])`, evidence enumeration,
text extraction, matching, stats, output assembly (where the
`framework["framework"]` lookup sits), output write. -/
def runMain (fw : FrameworkFile) (dir : EvidenceDir)
    (clientId assessmentType : String) :
    List Stage × Except RunError AssessmentResult :=
  match fw with
  | .malformed => ([], .error .jsonDecodeError)
  | .parsed doc =>
    let controls := doc.controls.getD []
    match dir with
    | .missing => ([.loadFramework], .error .fileNotFoundError)
    | .present files =>
      let evidence_texts := buildEvidenceTexts files
      let findings := controls.map
        (fun c => match_evidence_to_control c evidence_texts)
      let pc := findings.countP
        (fun f => f.preliminary_status == "potential_compliant")
      let pp := findings.countP
        (fun f => f.preliminary_status == "potential_partial")
      let pg := findings.countP
        (fun f => f.preliminary_status == "potential_gap")
      match doc.framework with
      | none =>
        ([.loadFramework, .catalogEvidence, .extractText, .matchControls],
         .error .keyError)
      | some ident =>
        ([.loadFramework, .catalogEvidence, .extractText, .matchControls,
          .writeOutput],
         .ok { client_id := clientId
               framework_id := ident.id
               framework_name := ident.name
               framework_version := ident.version
               assessment_type := assessmentType
               evidence_files := files
               total_controls := controls.length
               potential_compliant := pc
               potential_partial := pp
               potential_gap := pg
               findings := findings
               note := "Preliminary assessment - requires AI consensus analysis for final determination" })

/-! ## Spec-side definitions for refinement claims -/

/-- The status thresholds as the spec states them (§4.4 step 4): modelled
from the spec's words, to be compared with the matcher's output. -/
def statusOfCount (n : Nat) : String :=
  if n ≥ 2 then "potential_compliant"
  else if n = 1 then "potential_partial"
  else "potential_gap"

/-- Number of occurrences of `pat` in `text` counting every starting
position (so repeated occurrences in the text count separately).  Modelled
from the spec claim C2's words, to be compared with `countMatches`. -/
def substrOccCount (text pat : String) : Nat :=
  ((List.range (text.toList.length + 1)).filter
    (fun i => pat.toList.isPrefixOf (text.toList.drop i))).length

/-- Claim C2's counting rule, modelled from its words: every occurrence of
every keyword in the text is a separate hit. -/
def totalOccurrences (keywords : List String) (textLower : String) : Nat :=
  (keywords.map (fun kw => substrOccCount textLower kw)).sum

/-! ## Concrete instances used by counterexamples and witnesses -/

/-- A control whose single common-evidence label is
`"access control policy"`, for the C2 counterexample. -/
def c2Control : Control :=
  { id := "AC-1", name := "Access Control", description := "d"
    common_evidence := ["access control policy"], points_of_focus := [] }

/-- A control whose one label yields the token `policy` three times. -/
def c6ControlDup : Control :=
  { id := "c6a", name := "n", description := "d"
    common_evidence := ["policy policy policy"], points_of_focus := [] }

/-- A control whose one label yields the token `policy` once. -/
def c6ControlOnce : Control :=
  { id := "c6b", name := "n", description := "d"
    common_evidence := ["policy"], points_of_focus := [] }

/-- A 5000-character file name, for the C4 counterexample. -/
def longPdfName : String := (List.replicate 5000 'a').asString

/-- A framework document with a control list but no framework-identity
object, for the C3 counterexample. -/
def c3Doc : FrameworkDoc :=
  { framework := none
    controls := some [⟨"c3", "n", "d", ["policy"], []⟩] }

/-- A text evidence file, for the C3 counterexample. -/
def c3File : EvidenceFile :=
  { name := "e.txt", doc := .plainText "security policy evidence", size := 24 }

/-- A control for the C7 witness run. -/
def c7Control : Control := ⟨"c7", "n", "d", ["log"], []⟩

/-- The output artifact of the C7 witness run: one control, no evidence. -/
def c7Result : AssessmentResult :=
  { client_id := "c", framework_id := "fw", framework_name := "n"
    framework_version := "v", assessment_type := "full", evidence_files := []
    total_controls := 1, potential_compliant := 0, potential_partial := 0
    potential_gap := 1
    findings := [match_evidence_to_control c7Control []]
    note := "Preliminary assessment - requires AI consensus analysis for final determination" }

/-- A framework document whose identity object is present but whose
control list is absent, for the C8 counterexample. -/
def c8Doc : FrameworkDoc := ⟨some ⟨"fw", "n", "v"⟩, none⟩

/-- The output artifact of the C10 witness run: no controls, no evidence. -/
def c10Result : AssessmentResult :=
  { client_id := "c", framework_id := "f", framework_name := "n"
    framework_version := "v", assessment_type := "full", evidence_files := []
    total_controls := 0, potential_compliant := 0, potential_partial := 0
    potential_gap := 0, findings := []
    note := "Preliminary assessment - requires AI consensus analysis for final determination" }

/-- A recognized text file whose extraction succeeds with the empty
string, for the C9 witness. -/
def emptyTextFile : EvidenceFile := ⟨"a.txt", .plainText "", 0⟩

/-! ## Claim C1 -/

/-- C1: for every control and every extracted-text mapping, the finding's
`preliminary_status` is a pure function of the number of matched files,
per the thresholds 0 → `potential_gap`, 1 → `potential_partial`,
≥ 2 → `potential_compliant` (the spec-side `statusOfCount`). -/
theorem C1_status_is_function_of_match_count (c : Control)
    (texts : List (String × String)) :
    (match_evidence_to_control c texts).preliminary_status
      = statusOfCount (match_evidence_to_control c texts).evidence_found.length := by
  rfl

/-! ## Claim C2 -/

/-- C2 (counterexample): on the text `"access access access"` the claim's
counting rule — repeated occurrences in the text are separate hits — gives
3 > 2 hits, yet the code does not match the file: `kw in text_lower`
contributes at most one hit per keyword-list entry, and only one of the
three keywords occurs. -/
theorem C2_counterexample :
    2 < totalOccurrences (controlKeywords c2Control)
          (pyLower "access access access")
    ∧ (match_evidence_to_control c2Control
          [("e.txt", "access access access")]).evidence_found = [] := by
  decide

/-- C2 (amended): a file is matched to the control exactly when the number
of keyword-list entries (counted with their multiplicity in the list) that
occur as substrings of the lower-cased text is strictly greater than 2;
repeated occurrences of the same keyword inside the text count only once
per keyword-list entry. -/
theorem C2_amended_matched_iff_count_gt_two (c : Control)
    (texts : List (String × String)) (name : String) :
    name ∈ (match_evidence_to_control c texts).evidence_found ↔
      ∃ text, (name, text) ∈ texts
        ∧ 2 < countMatches (controlKeywords c) (pyLower text) := by
  simp only [match_evidence_to_control, List.mem_map, List.mem_filter,
    decide_eq_true_eq]
  constructor
  · rintro ⟨⟨n, t⟩, ⟨hmem, hcnt⟩, rfl⟩
    exact ⟨t, hmem, hcnt⟩
  · rintro ⟨t, hmem, hcnt⟩
    exact ⟨(name, t), ⟨hmem, hcnt⟩, rfl⟩

/-! ## Claim C5 -/

/-- C5: a control with an empty common-evidence list yields an empty
keyword list, hence zero matches for every file and `potential_gap`,
whatever the extracted texts are. -/
theorem C5_empty_common_evidence_is_gap (c : Control)
    (texts : List (String × String)) (h : c.common_evidence = []) :
    (match_evidence_to_control c texts).evidence_found = []
    ∧ (match_evidence_to_control c texts).preliminary_status
        = "potential_gap" := by
  have hk : controlKeywords c = [] := by simp [controlKeywords, h]
  simp [match_evidence_to_control, hk, countMatches]

/-- Witness for C5 at a concrete control and a nonempty text mapping. -/
theorem C5_empty_common_evidence_is_gap_witness :
    (⟨"c1", "n", "d", [], []⟩ : Control).common_evidence = []
    ∧ ((match_evidence_to_control ⟨"c1", "n", "d", [], []⟩
          [("e.txt", "any text")]).evidence_found = []
       ∧ (match_evidence_to_control ⟨"c1", "n", "d", [], []⟩
          [("e.txt", "any text")]).preliminary_status = "potential_gap") :=
  ⟨rfl, C5_empty_common_evidence_is_gap _ [("e.txt", "any text")] rfl⟩

/-! ## Claim C6 -/

/-- C6 (counterexample): duplicate tokens do not collapse.  Against the
single text `"Policy"`, the control whose labels produce the token
`policy` three times matches the file (3 hits > 2, status
`potential_partial`), while the control producing the token once does not
(1 hit, status `potential_gap`): the two do not score the file
identically. -/
theorem C6_counterexample :
    (match_evidence_to_control c6ControlDup
        [("f.txt", "Policy")]).preliminary_status = "potential_partial"
    ∧ (match_evidence_to_control c6ControlOnce
        [("f.txt", "Policy")]).preliminary_status = "potential_gap" := by
  decide

/-- Per-file score of a keyword list is the sum, over the list's entries
with multiplicity, of one indicator per entry. -/
theorem countMatches_eq_sum_indicators (l : List String) (t : String) :
    countMatches l t
      = (l.map (fun kw => if strContains t kw then 1 else 0)).sum := by
  induction l with
  | nil => rfl
  | cons k ks ih =>
    simp only [countMatches, List.filter_cons, List.map_cons, List.sum_cons]
    by_cases hc : strContains t k
    · simp only [hc, if_true, List.length_cons]
      simp only [countMatches] at ih
      omega
    · simp only [hc, Bool.false_eq_true, if_false]
      simp only [countMatches] at ih
      omega

/-- C6 (amended): the keyword list is built by lower-casing each
common-evidence label and splitting on whitespace, keeping duplicates, and
a file's score is the sum over the keyword-list entries — counted with
multiplicity — of one hit per entry occurring in the text, so a control
whose labels produce the same token twice scores a file containing it
twice as high as a control producing that token once. -/
theorem C6_amended_duplicates_count_with_multiplicity (c : Control)
    (textLower : String) :
    countMatches (controlKeywords c) textLower
      = ((c.common_evidence.flatMap (fun ev => pySplit (pyLower ev))).map
          (fun kw => if strContains textLower kw then 1 else 0)).sum :=
  countMatches_eq_sum_indicators (controlKeywords c) textLower

/-! ## Claim C4 -/

/-- C4 (counterexample): the placeholder fallback is not truncated.  A
`.pdf` file with a 5000-character name whose extraction fails contributes
the placeholder `"[PDF: " ++ name ++ "]"`, of length 5007 > 5000. -/
theorem C4_counterexample :
    5000 < ((extract_text_from_file longPdfName (.pdf none)).getD "").length := by
  show 5000 < ("[PDF: " ++ longPdfName ++ "]").length
  rw [String.length_append, String.length_append]
  have hlen : longPdfName.length = 5000 := by
    show (List.replicate 5000 'a').length = 5000
    exact List.length_replicate 5000 'a'
  rw [hlen]
  decide

/-- Length of a Python slice `s[:n]` is at most `n`. -/
theorem pyTake_length_le (s : String) (n : Nat) : (pyTake s n).length ≤ n := by
  show (s.toList.take n).length ≤ n
  exact List.length_take_le n s.toList

/-- C4 (amended): every extraction result produced by truncation is at
most 5000 characters regardless of document size or content; the
placeholder fallbacks are `"[PDF: "`/`"[DOCX: "`/`"[XLSX: "` plus the file
name plus `"]"`, so every entry is at most 5000 characters provided the
file's name is at most 4992 characters long. -/
theorem C4_amended_truncation_bound (name : String) (doc : EvidenceDoc)
    (t : String) (hname : name.length ≤ 4992)
    (h : extract_text_from_file name doc = some t) :
    t.length ≤ 5000 := by
  cases doc with
  | plainText content =>
    simp only [extract_text_from_file, Option.some.injEq] at h
    subst h
    exact (pyTake_length_le _ _).trans (by omega)
  | pdf pages =>
    cases pages with
    | some ps =>
      simp only [extract_text_from_file, Option.some.injEq] at h
      subst h
      exact (pyTake_length_le _ _).trans (by omega)
    | none =>
      simp only [extract_text_from_file, Option.some.injEq] at h
      subst h
      rw [String.length_append, String.length_append]
      have h1 : ("[PDF: " : String).length = 6 := rfl
      have h2 : ("]" : String).length = 1 := rfl
      rw [h1, h2]
      omega
  | docx paras =>
    cases paras with
    | some ps =>
      simp only [extract_text_from_file, Option.some.injEq] at h
      subst h
      exact (pyTake_length_le _ _).trans (by omega)
    | none =>
      simp only [extract_text_from_file, Option.some.injEq] at h
      subst h
      rw [String.length_append, String.length_append]
      have h1 : ("[DOCX: " : String).length = 7 := rfl
      have h2 : ("]" : String).length = 1 := rfl
      rw [h1, h2]
      omega
  | xlsx sheets =>
    cases sheets with
    | some ss =>
      simp only [extract_text_from_file, Option.some.injEq] at h
      subst h
      exact (pyTake_length_le _ _).trans (by omega)
    | none =>
      simp only [extract_text_from_file, Option.some.injEq] at h
      subst h
      rw [String.length_append, String.length_append]
      have h1 : ("[XLSX: " : String).length = 7 := rfl
      have h2 : ("]" : String).length = 1 := rfl
      rw [h1, h2]
      omega
  | other => simp [extract_text_from_file] at h
  | readError => simp [extract_text_from_file] at h

/-- Witness for the amended C4 at a concrete short-named text file. -/
theorem C4_amended_truncation_bound_witness :
    ("e.txt" : String).length ≤ 4992 ∧ (pyTake "hello world" 5000).length ≤ 5000 :=
  ⟨by decide,
   C4_amended_truncation_bound "e.txt" (.plainText "hello world")
     (pyTake "hello world" 5000) (by decide) rfl⟩

/-! ## Claim C3 -/

/-- C3 (counterexample): a framework document whose framework-identity
object is absent is loaded without any schema check; the run reaches the
text-extraction stage and fails only with a `KeyError` while assembling
the output, not with a load-time SchemaError before extraction. -/
theorem C3_counterexample :
    Stage.extractText
      ∈ (runMain (.parsed c3Doc) (.present [c3File]) "cid" "full").1
    ∧ (runMain (.parsed c3Doc) (.present [c3File]) "cid" "full").2
        = .error .keyError :=
  ⟨by decide, rfl⟩

/-- C3 (amended): a malformed framework document aborts the run at load,
before any extraction; but missing required top-level fields are not
validated at load time: a missing framework-identity object makes the run
fail with a `KeyError` only after text extraction and matching have run,
and a missing control list is not an error at all — the run succeeds. -/
theorem C3_amended_no_load_time_schema_check (dir : EvidenceDir)
    (files : List EvidenceFile) (doc : FrameworkDoc) (cid atype : String) :
    ((runMain .malformed dir cid atype).2 = .error .jsonDecodeError
      ∧ Stage.extractText ∉ (runMain .malformed dir cid atype).1)
    ∧ (doc.framework = none →
        (runMain (.parsed doc) (.present files) cid atype).2 = .error .keyError
        ∧ Stage.extractText
            ∈ (runMain (.parsed doc) (.present files) cid atype).1)
    ∧ (doc.controls = none → doc.framework ≠ none →
        ∃ r, (runMain (.parsed doc) (.present files) cid atype).2 = .ok r) := by
  refine ⟨⟨rfl, by simp [runMain]⟩, ?_, ?_⟩
  · intro h
    obtain ⟨fwk, ctls⟩ := doc
    cases fwk with
    | none => exact ⟨rfl, by simp [runMain]⟩
    | some i => simp at h
  · intro hc hf
    obtain ⟨fwk, ctls⟩ := doc
    cases fwk with
    | none => exact absurd rfl hf
    | some i => exact ⟨_, rfl⟩

/-- Witness for the amended C3: the run on a document with no
framework-identity object fails with a `KeyError` after reaching the
extraction stage. -/
theorem C3_amended_no_load_time_schema_check_witness :
    (runMain (.parsed ⟨none, some []⟩) (.present []) "c" "full").2
      = .error .keyError
    ∧ Stage.extractText
        ∈ (runMain (.parsed ⟨none, some []⟩) (.present []) "c" "full").1 :=
  (C3_amended_no_load_time_schema_check (.present []) [] ⟨none, some []⟩
    "c" "full").2.1 rfl

/-! ## Claim C7 -/

/-- C7: for every loaded framework and any two evidence enumerations that
are permutations of each other, the findings array has exactly one finding
per control, its order follows the control order of the framework (the
i-th finding carries the i-th control's id), and that id sequence is the
same for both enumerations. -/
theorem C7_findings_follow_control_order (ident : FrameworkIdent)
    (controls : List Control) (files files2 : List EvidenceFile)
    (cid atype : String) (r r2 : AssessmentResult)
    (_hperm : files.Perm files2)
    (h : (runMain (.parsed ⟨some ident, some controls⟩) (.present files)
            cid atype).2 = .ok r)
    (h2 : (runMain (.parsed ⟨some ident, some controls⟩) (.present files2)
            cid atype).2 = .ok r2) :
    r.findings.length = controls.length
    ∧ r.findings.map (fun f => f.control_id) = controls.map (fun c => c.id)
    ∧ r2.findings.map (fun f => f.control_id)
        = r.findings.map (fun f => f.control_id) := by
  simp only [runMain, Option.getD_some, Except.ok.injEq] at h h2
  subst h
  subst h2
  refine ⟨by simp, ?_, ?_⟩
  · rw [List.map_map]
    exact List.map_congr_left (fun c _ => rfl)
  · rw [List.map_map, List.map_map]
    rfl

/-- Witness for C7 at one control and the empty evidence directory. -/
theorem C7_findings_follow_control_order_witness :
    c7Result.findings.length = [c7Control].length
    ∧ c7Result.findings.map (fun f => f.control_id)
        = [c7Control].map (fun c => c.id)
    ∧ c7Result.findings.map (fun f => f.control_id)
        = c7Result.findings.map (fun f => f.control_id) :=
  C7_findings_follow_control_order ⟨"fw", "n", "v"⟩ [c7Control] [] [] "c"
    "full" c7Result c7Result (List.Perm.refl []) rfl rfl

/-! ## Claim C8 -/

/-- C8 (counterexample): a missing control list is a missing required
top-level field, yet the run does not terminate on it: it succeeds and
reaches the output-writing stage. -/
theorem C8_counterexample :
    Stage.writeOutput ∈ (runMain (.parsed c8Doc) (.present []) "c" "full").1
    ∧ (runMain (.parsed c8Doc) (.present []) "c" "full").2.isOk = true :=
  ⟨by decide, rfl⟩

/-- C8 (amended): whenever the run fails, the output-writing stage was
never reached, so no partial or corrupt output is produced; a malformed
framework document, a missing framework-identity object, and a missing
evidence directory each make the run fail.  (A missing control list does
not: the run completes and writes a full output with zero findings.) -/
theorem C8_amended_failures_never_write_output (fw : FrameworkFile)
    (dir : EvidenceDir) (cid atype : String) :
    ((runMain fw dir cid atype).2.isOk = false →
        Stage.writeOutput ∉ (runMain fw dir cid atype).1)
    ∧ (fw = .malformed → (runMain fw dir cid atype).2.isOk = false)
    ∧ (∀ doc, fw = .parsed doc → doc.framework = none →
        (runMain fw dir cid atype).2.isOk = false)
    ∧ (∀ doc, fw = .parsed doc → dir = .missing →
        (runMain fw dir cid atype).2.isOk = false) := by
  obtain _ | ⟨fwk, ctls⟩ := fw
  · refine ⟨fun _ => by simp [runMain], fun _ => rfl, ?_, ?_⟩
    · intro doc h; simp at h
    · intro doc h; simp at h
  · obtain _ | files := dir
    · refine ⟨fun _ => by simp [runMain], ?_, ?_, ?_⟩
      · intro h; simp at h
      · intro doc h hf; rfl
      · intro doc h hd; rfl
    · cases fwk with
      | none =>
        refine ⟨fun _ => by simp [runMain], ?_, ?_, ?_⟩
        · intro h; simp at h
        · intro doc h hf; rfl
        · intro doc h hd; simp at hd
      | some i =>
        refine ⟨?_, ?_, ?_, ?_⟩
        · intro h
          simp [runMain, Except.isOk, Except.toBool] at h
        · intro h; simp at h
        · intro doc h hf
          injection h with h3
          subst h3
          simp at hf
        · intro doc h hd; simp at hd

/-- Witness for the amended C8: the run on a malformed framework document
fails and never reaches the output-writing stage. -/
theorem C8_amended_failures_never_write_output_witness :
    (runMain .malformed (.present []) "c" "full").2.isOk = false
    ∧ Stage.writeOutput ∉ (runMain .malformed (.present []) "c" "full").1 :=
  ⟨(C8_amended_failures_never_write_output .malformed (.present [])
      "c" "full").2.1 rfl,
   (C8_amended_failures_never_write_output .malformed (.present [])
      "c" "full").1
     ((C8_amended_failures_never_write_output .malformed (.present [])
        "c" "full").2.1 rfl)⟩

/-! ## Claim C9 -/

/-- Any name among the keys of the extracted-text mapping belongs to a
file of the catalog whose extraction returned a truthy (non-empty)
string. -/
theorem mem_buildEvidenceTexts_names (files : List EvidenceFile)
    (n : String) (h : n ∈ (buildEvidenceTexts files).map (fun p => p.1)) :
    ∃ g ∈ files, g.name = n
      ∧ ∃ u, extract_text_from_file g.name g.doc = some u ∧ u ≠ "" := by
  simp only [List.mem_map, buildEvidenceTexts, List.mem_filterMap] at h
  obtain ⟨⟨m, t⟩, ⟨g, hg, hFg⟩, hn⟩ := h
  cases hE : extract_text_from_file g.name g.doc with
  | none =>
    rw [hE] at hFg
    simp at hFg
  | some u =>
    rw [hE] at hFg
    by_cases hu : u = ""
    · subst hu
      simp at hFg
    · simp only [if_neg hu, Option.some.injEq, Prod.mk.injEq] at hFg
      obtain ⟨hgm, hut⟩ := hFg
      exact ⟨g, hg, hgm.trans hn, u, hE, hu⟩

/-- C9: if a cataloged file's extraction succeeds but yields the empty
string, the file contributes no entry to the extracted-text mapping and
its name never appears in any finding's `evidence_found` (file names in a
directory being distinct). -/
theorem C9_empty_extraction_never_matched (files : List EvidenceFile)
    (f : EvidenceFile) (hf : f ∈ files)
    (hnd : (files.map (fun g => g.name)).Nodup)
    (hext : extract_text_from_file f.name f.doc = some "") :
    f.name ∉ (buildEvidenceTexts files).map (fun p => p.1)
    ∧ ∀ c : Control, f.name ∉
        (match_evidence_to_control c (buildEvidenceTexts files)).evidence_found := by
  have hkey : f.name ∉ (buildEvidenceTexts files).map (fun p => p.1) := by
    intro hmem
    obtain ⟨g, hg, hgn, u, hE, hu⟩ :=
      mem_buildEvidenceTexts_names files f.name hmem
    have hgf : g = f := List.inj_on_of_nodup_map hnd hg hf hgn
    subst hgf
    rw [hext] at hE
    injection hE with hE2
    exact hu hE2.symm
  refine ⟨hkey, fun c hmem2 => ?_⟩
  apply hkey
  simp only [match_evidence_to_control, List.mem_map, List.mem_filter]
    at hmem2
  obtain ⟨p, ⟨hp, hp2⟩, hp1⟩ := hmem2
  exact List.mem_map.mpr ⟨p, hp, hp1⟩

/-- Witness for C9: an empty `.txt` file extracts to `some ""` and its
name is absent from the extracted-text mapping built over it. -/
theorem C9_empty_extraction_never_matched_witness :
    extract_text_from_file emptyTextFile.name emptyTextFile.doc = some ""
    ∧ emptyTextFile.name
        ∉ (buildEvidenceTexts [emptyTextFile]).map (fun p => p.1) :=
  ⟨rfl,
   (C9_empty_extraction_never_matched [emptyTextFile] emptyTextFile
     (by simp) (by simp) rfl).1⟩

/-! ## Claim C10 -/

/-- The matcher only ever emits one of the three preliminary statuses. -/
theorem status_of_match_is_one_of_three (c : Control)
    (texts : List (String × String)) :
    (match_evidence_to_control c texts).preliminary_status
        = "potential_compliant"
    ∨ (match_evidence_to_control c texts).preliminary_status
        = "potential_partial"
    ∨ (match_evidence_to_control c texts).preliminary_status
        = "potential_gap" := by
  simp only [match_evidence_to_control]
  split_ifs <;> simp

/-- Tallying three mutually exclusive, jointly exhaustive statuses
partitions a findings list. -/
theorem countP_three_statuses (l : List Finding)
    (hl : ∀ f ∈ l, f.preliminary_status = "potential_compliant"
        ∨ f.preliminary_status = "potential_partial"
        ∨ f.preliminary_status = "potential_gap") :
    l.countP (fun f => f.preliminary_status == "potential_compliant")
    + l.countP (fun f => f.preliminary_status == "potential_partial")
    + l.countP (fun f => f.preliminary_status == "potential_gap")
    = l.length := by
  induction l with
  | nil => rfl
  | cons f fs ih =>
    have hf := hl f (List.mem_cons_self f fs)
    have ihs := ih (fun g hg => hl g (List.mem_cons_of_mem f hg))
    simp only [List.countP_cons, List.length_cons]
    rcases hf with h | h | h <;> rw [h] <;> simp <;> omega

/-- C10: in every successfully produced assessment result, the three
preliminary-summary counts sum to `total_controls`, which equals the
number of findings. -/
theorem C10_summary_counts_partition (fw : FrameworkFile)
    (dir : EvidenceDir) (cid atype : String) (r : AssessmentResult)
    (h : (runMain fw dir cid atype).2 = .ok r) :
    r.potential_compliant + r.potential_partial + r.potential_gap
      = r.total_controls
    ∧ r.total_controls = r.findings.length := by
  obtain _ | ⟨fwk, ctls⟩ := fw
  · simp [runMain] at h
  obtain _ | files := dir
  · simp [runMain] at h
  obtain _ | ident := fwk
  · simp [runMain] at h
  · simp only [runMain, Except.ok.injEq] at h
    subst h
    constructor
    · refine (countP_three_statuses _ ?_).trans ?_
      · intro f hf
        simp only [List.mem_map] at hf
        obtain ⟨c, hc, rfl⟩ := hf
        exact status_of_match_is_one_of_three c _
      · simp
    · simp

/-- Witness for C10 at the run on an empty control list and empty
evidence directory. -/
theorem C10_summary_counts_partition_witness :
    (runMain (.parsed ⟨some ⟨"f", "n", "v"⟩, some []⟩) (.present [])
        "c" "full").2 = .ok c10Result
    ∧ (c10Result.potential_compliant + c10Result.potential_partial
          + c10Result.potential_gap = c10Result.total_controls
       ∧ c10Result.total_controls = c10Result.findings.length) :=
  ⟨rfl,
   C10_summary_counts_partition (.parsed ⟨some ⟨"f", "n", "v"⟩, some []⟩)
     (.present []) "c" "full" c10Result rfl⟩
